import Mathlib

/-!
Shallow embedding of `src/DoggyDoorbell.ino` (an Arduino/ESP32 sketch).

The sketch is single-threaded and fully blocking, so every routine is
embedded as a pure Lean function over an explicit device state; external
inputs (serial bytes, scan results, HTTP responses, connection success)
become explicit parameters, and the side-effecting platform calls
(Preferences store sessions, WiFi connect, HTTP requests, delays) are
recorded in explicit event traces.  Serial *prints* are not modelled:
they carry no state.
-/

set_option autoImplicit false

namespace DoggyDoorbell

/-! ## Persistent settings store (ESP32 `Preferences`)

The `Preferences` object under namespace `wifi-config` is a string
key-value store: `putString` overwrites the value at a key,
`getString key default` returns the stored value or the default. -/

/-- The key-value contents of the `wifi-config` preferences namespace. -/
abbrev Store := List (String × String)

/-- Model of `preferences.putString(key, value)`: overwrite the binding for
`key`. -/
def putString (st : Store) (k v : String) : Store :=
  (k, v) :: st.filter (fun p => p.1 != k)

/-- Model of `preferences.getString(key, default)`: the stored value if the
key is present, the supplied default otherwise. -/
def getString (st : Store) (k d : String) : String :=
  match st.find? (fun p => p.1 == k) with
  | some p => p.2
  | none => d

/-! ## Device state

The sketch's global mutable variables (`DoggyDoorbell.ino` lines 9-19),
together with the live Wi-Fi association status (`WiFi.status()`), which the
code reads but never stores. -/

/-- Global mutable state of the sketch plus the live connectivity status. -/
structure DeviceState where
  store : Store
  triggerURL : String
  activeSSID : String
  activePassword : String
  lastButtonState : Bool
  /-- `WiFi.status() == WL_CONNECTED` -/
  connected : Bool
  deriving DecidableEq

/-! ## Serial line reader (`readSerialTimeout`, lines 35-53)

The loop polls `Serial.available()` and reads at most one byte per
iteration, then `delay(10)`; it runs while `millis() - startTime < 30000`,
i.e. for `30000 / 10 = 3000` iterations (modelling the loop body as
instantaneous apart from the delay).  The serial input is modelled as the
per-iteration result of `Serial.read()`: `none` when no byte is available,
`some c` otherwise. -/

/-- Milliseconds the serial reader waits (`timeout` default, line 35). -/
def serialTimeoutMs : Nat := 30000

/-- Whether a byte terminates a line (`c == '\n' || c == '\r'`, line 42). -/
def isTerm (c : Char) : Bool := c == '\n' || c == '\r'

/-- The reader loop body (lines 39-51): accumulate non-terminator bytes;
on a terminator, return the accumulator only if it is non-empty; when the
iteration budget runs out, return whatever has accumulated (line 52). -/
def readLoop : List (Option Char) → List Char → List Char
  | [], acc => acc
  | none :: rest, acc => readLoop rest acc
  | some c :: rest, acc =>
    if isTerm c then
      if acc.length > 0 then acc else readLoop rest acc
    else
      readLoop rest (acc ++ [c])

/-- Model of `readSerialTimeout()` with the default 30 s timeout: run the
loop for at most `30000 / 10` iterations over the incoming byte stream. -/
def readSerialTimeout (seq : List (Option Char)) : String :=
  String.mk (readLoop (seq.take (serialTimeoutMs / 10)) [])

/-- The non-terminator characters delivered by a byte stream, in order. -/
def nonTermChars (seq : List (Option Char)) : List Char :=
  (seq.filterMap id).filter (fun c => !(isTerm c))

/-! ## `String::toInt()` (Arduino)

`String::toInt()` is `atol` on the underlying C string: skip leading
whitespace, an optional sign, then a maximal run of decimal digits;
no digits parse to `0`. -/

/-- Characters `atol` skips as leading whitespace (C `isspace`). -/
def isSpaceChar (c : Char) : Bool :=
  c == ' ' || c == '\t' || c == '\n' || c == '\x0b' || c == '\x0c' || c == '\r'

/-- Accumulate a maximal run of leading decimal digits. -/
def parseDigits : List Char → Nat → Nat
  | [], acc => acc
  | c :: cs, acc =>
    if c.isDigit then parseDigits cs (acc * 10 + (c.toNat - '0'.toNat)) else acc

/-- Model of Arduino `String::toInt()` (`atol` semantics; the `long` range
is not modelled, the menus only ever see small numbers). -/
def stringToInt (s : String) : Int :=
  match s.data.dropWhile isSpaceChar with
  | '-' :: rest => -(parseDigits rest 0 : Int)
  | '+' :: rest => (parseDigits rest 0 : Int)
  | cs => (parseDigits cs 0 : Int)

/-! ## Network scan and selection (`scanAndSelectNetwork`, lines 56-84)

`WiFi.scanNetworks()` is modelled by its result: the ordered list of
SSIDs (`networks`); the operator's reply to the index prompt is the line
`selLine` that `readSerialTimeout()` returned. -/

/-- Model of `scanAndSelectNetwork()`: empty scan returns `""`; otherwise
`networkIndex = selLine.toInt() - 1` selects `networks[networkIndex]` when
`0 <= networkIndex < networks.length`, else the invalid-selection outcome
`""` (lines 60-83). -/
def scanAndSelectNetwork (networks : List String) (selLine : String) : String :=
  if networks.length = 0 then
    ""
  else
    let networkIndex : Int := stringToInt selLine - 1
    if 0 ≤ networkIndex ∧ networkIndex < (networks.length : Int) then
      networks.getD networkIndex.toNat ""
    else
      ""

/-! ## Side-effect events

The store sessions, Wi-Fi calls, HTTP calls and delays a routine performs,
in order.  (Serial prints are not recorded.) -/

/-- Preferences and Wi-Fi events of the configuration actions. -/
inductive Ev where
  /-- `preferences.begin(ns, readOnly)` -/
  | prefBegin (ns : String) (readOnly : Bool)
  /-- `preferences.putString(key, value)` -/
  | prefPut (k v : String)
  /-- `preferences.end()` -/
  | prefEnd
  /-- `WiFi.disconnect()` -/
  | wifiDisconnect
  /-- `WiFi.begin(ssid, password)` -/
  | wifiBegin (ssid pw : String)
  deriving DecidableEq

/-- HTTP-client events of `triggerDoorbell()`. -/
inductive HEv where
  /-- `http.begin(url)` -/
  | httpBegin (url : String)
  /-- one `http.GET()` call returning `code` -/
  | httpGET (code : Int)
  /-- `delay(ms)` -/
  | delayMs (ms : Nat)
  /-- `http.end()` -/
  | httpEnd
  deriving DecidableEq

/-! ## Wi-Fi configuration (`configureWiFi`, lines 87-126)

Inputs: the scan result `networks`, the operator's selection line `selLine`
and password line `pwLine` (each as returned by `readSerialTimeout()`), and
whether the subsequent association succeeds within the 20-poll budget
(`connectOK`, lines 112-117 — the poll loop only prints). -/

/-- Model of `configureWiFi()`: abort (state unchanged, no events) when the
network selection yields `""` (line 89) or the password line is empty
(line 95); otherwise save both credentials in one read-write store session
(lines 101-104), then disconnect and begin association with the *new*
credentials (lines 109-110).  Note the in-memory `activeSSID` /
`activePassword` are never assigned. -/
def configureWiFi (st : DeviceState) (networks : List String)
    (selLine pwLine : String) (connectOK : Bool) : DeviceState × List Ev :=
  let newSSID := scanAndSelectNetwork networks selLine
  if newSSID.length = 0 then
    (st, [])
  else if pwLine.length = 0 then
    (st, [])
  else
    ({ st with
        store := putString (putString st.store "ssid" newSSID) "password" pwLine
        connected := connectOK },
     [Ev.prefBegin "wifi-config" false, Ev.prefPut "ssid" newSSID,
      Ev.prefPut "password" pwLine, Ev.prefEnd,
      Ev.wifiDisconnect, Ev.wifiBegin newSSID pwLine])

/-! ## Trigger-URL configuration (`configureTriggerURL`, lines 129-151) -/

/-- Model of Arduino `String::startsWith(p)`: the characters of `s` begin
with the characters of `p`. -/
def strStartsWith (s p : String) : Bool := p.data.isPrefixOf s.data

/-- Model of `configureTriggerURL()`: reject an empty line (timeout,
line 133) or a line not starting with `http://` / `https://` (line 139)
leaving the state unchanged; otherwise persist under `trigger-url` in one
store session and set the in-memory `triggerURL` (lines 145-149). -/
def configureTriggerURL (st : DeviceState) (newURL : String) :
    DeviceState × List Ev :=
  if newURL.length = 0 then
    (st, [])
  else if !(strStartsWith newURL "http://") && !(strStartsWith newURL "https://") then
    (st, [])
  else
    ({ st with
        store := putString st.store "trigger-url" newURL
        triggerURL := newURL },
     [Ev.prefBegin "wifi-config" false, Ev.prefPut "trigger-url" newURL,
      Ev.prefEnd])

/-! ## Settings load at startup (`setup`, lines 243-247) -/

/-- The three reads `setup()` performs from the read-only store session:
ssid, password and trigger URL, each defaulting to `""`. -/
def loadSettings (store : Store) : String × String × String :=
  (getString store "ssid" "", getString store "password" "",
   getString store "trigger-url" "")

/-! ## Webhook trigger client (`triggerDoorbell`, lines 202-233)

The HTTP environment is the sequence of responses the server side would
give to successive `http.GET()` calls within this invocation:
`env n = (code, body)` for the `n`-th GET. -/

/-- Outcome `triggerDoorbell()` reports on the serial console. -/
inductive TriggerReport where
  /-- "WiFi not connected! Cannot trigger." (line 204) -/
  | notConnected
  /-- "Trigger URL not configured!" (line 209) -/
  | noURL
  /-- "HTTP Response code: code / Response: body" (lines 226-227) -/
  | response (code : Int) (body : String)
  /-- "Error code: code" (line 229) -/
  | failed (code : Int)
  deriving DecidableEq

/-- Model of `triggerDoorbell()`: fail fast with no HTTP activity when
disconnected (line 203) or the URL is empty (line 208); otherwise
`http.begin`, one GET, and if its code is `<= 0` a `delay(50)` and exactly
one retry GET (lines 218-222); a final code `> 0` reports code and body
(`http.getString()` of the last request), else the error code; `http.end()`
closes (line 232).  Returns the (unchanged) state, the report, and the
HTTP event trace. -/
def triggerDoorbell (st : DeviceState) (env : Nat → Int × String) :
    DeviceState × TriggerReport × List HEv :=
  if st.connected = false then
    (st, TriggerReport.notConnected, [])
  else if st.triggerURL.length = 0 then
    (st, TriggerReport.noURL, [])
  else
    let code1 := (env 0).1
    if code1 ≤ 0 then
      let code2 := (env 1).1
      let trace := [HEv.httpBegin st.triggerURL, HEv.httpGET code1,
                    HEv.delayMs 50, HEv.httpGET code2, HEv.httpEnd]
      if code2 > 0 then
        (st, TriggerReport.response code2 (env 1).2, trace)
      else
        (st, TriggerReport.failed code2, trace)
    else
      (st, TriggerReport.response code1 (env 0).2,
       [HEv.httpBegin st.triggerURL, HEv.httpGET code1, HEv.httpEnd])

/-! ## Event loop button handling (`loop`, lines 275-283)

One iteration per button sample; `HIGH` is `true`.  The serial-menu branch
(lines 285-287) is not taken here: the claims about the loop concern runs
with no serial bytes available.  The second component counts invocations of
the Webhook Trigger Client. -/

/-- One `loop()` iteration on one button sample: on a low-to-high edge
(`buttonState != lastButtonState && buttonState == HIGH`, line 278) invoke
`triggerDoorbell()` (counted), then record the sample as
`lastButtonState` (line 282). -/
def loopStep (env : Nat → Int × String) (st : DeviceState) (sample : Bool) :
    DeviceState × Nat :=
  if sample != st.lastButtonState && sample then
    let st' := (triggerDoorbell st env).1
    ({ st' with lastButtonState := sample }, 1)
  else
    ({ st with lastButtonState := sample }, 0)

/-- Run successive `loop()` iterations over a list of button samples,
returning the final state and the total number of trigger invocations. -/
def runLoop (env : Nat → Int × String) : DeviceState → List Bool → DeviceState × Nat
  | st, [] => (st, 0)
  | st, s :: rest =>
    let p := loopStep env st s
    let q := runLoop env p.1 rest
    (q.1, p.2 + q.2)

/-! ## Theorems

Helper lemmas first, then one theorem per claim of the specification,
with witnesses instantiating the hypothesis-bearing ones. -/

/-- The trigger client never writes the device state: every branch of
`triggerDoorbell` returns the input state. -/
lemma triggerDoorbell_fst (st : DeviceState) (env : Nat → Int × String) :
    (triggerDoorbell st env).1 = st := by
  unfold triggerDoorbell
  dsimp only
  repeat' split
  all_goals rfl

/-- Reading a key straight after writing it returns the written value. -/
lemma getString_putString_self (st : Store) (k v d : String) :
    getString (putString st k v) k d = v := by
  simp [getString, putString, List.find?]

/-- Removing the bindings of a *different* key does not change a lookup. -/
lemma find?_filter_ne (st : Store) (k k' : String) (h : k ≠ k') :
    (st.filter (fun p => p.1 != k')).find? (fun p => p.1 == k) =
      st.find? (fun p => p.1 == k) := by
  induction st with
  | nil => rfl
  | cons a l ih =>
    by_cases h1 : a.1 = k'
    · have e1 : (a.1 != k') = false := by simp [h1]
      have e2 : (a.1 == k) = false := by
        have hne : a.1 ≠ k := by
          rw [h1]
          exact fun hkk => h hkk.symm
        simpa using hne
      simp [List.filter_cons, List.find?_cons, e1, e2, ih]
    · have e1 : (a.1 != k') = true := by simpa using h1
      by_cases h2 : a.1 = k
      · have e2 : (a.1 == k) = true := by simpa using h2
        simp [List.filter_cons, List.find?_cons, e1, e2]
      · have e2 : (a.1 == k) = false := by simpa using h2
        simp [List.filter_cons, List.find?_cons, e1, e2, ih]

/-- Writing one key leaves reads of a different key unchanged. -/
lemma getString_putString_other (st : Store) (k k' v d : String) (h : k ≠ k') :
    getString (putString st k' v) k d = getString st k d := by
  have hk : (k' == k) = false := by
    simp
    exact fun hkk => h hkk.symm
  simp [getString, putString, List.find?_cons, hk, find?_filter_ne st k k' h]

/-- Claim C7: for every stored settings field, a read immediately following
a write of value `v` returns exactly `v`, and a read of a key with no prior
write (with the empty-string default the settings loads pass) returns the
empty string. -/
theorem store_read_write (st : Store) (k v d : String) :
    getString (putString st k v) k d = v ∧
    ((∀ p ∈ st, p.1 ≠ k) → getString st k "" = "") := by
  constructor
  · exact getString_putString_self st k v d
  · intro h
    have hn : st.find? (fun p => p.1 == k) = none := by
      rw [List.find?_eq_none]
      intro p hp
      simpa using h p hp
    simp [getString, hn]

/-- Witness for C7 at concrete stores and keys. -/
theorem store_read_write_witness :
    getString (putString [] "ssid" "HomeNet") "ssid" "" = "HomeNet" ∧
    ((∀ p ∈ ([("password", "pw")] : Store), p.1 ≠ "ssid") →
      getString [("password", "pw")] "ssid" "" = "") ∧
    getString [("password", "pw")] "ssid" "" = "" := by
  refine ⟨(store_read_write [] "ssid" "HomeNet" "").1, (store_read_write _ _ "x" "").2, ?_⟩
  exact (store_read_write [("password", "pw")] "ssid" "x" "").2 (by decide)

/-- Claim C10: every invocation of the webhook trigger operation, whatever
its outcome, leaves the in-memory settings (`triggerURL`, `activeSSID`,
`activePassword`) and the persistent store unchanged. -/
theorem trigger_frame (st : DeviceState) (env : Nat → Int × String) :
    (triggerDoorbell st env).1.triggerURL = st.triggerURL ∧
    (triggerDoorbell st env).1.activeSSID = st.activeSSID ∧
    (triggerDoorbell st env).1.activePassword = st.activePassword ∧
    (triggerDoorbell st env).1.store = st.store := by
  rw [triggerDoorbell_fst]
  exact ⟨rfl, rfl, rfl, rfl⟩

/-- Claim C2: when disconnected, or when the configured trigger URL is
empty, `triggerDoorbell` reports an error and performs no HTTP activity at
all (empty HTTP event trace, in particular no GET). -/
theorem trigger_precondition (st : DeviceState) (env : Nat → Int × String)
    (h : st.connected = false ∨ st.triggerURL.length = 0) :
    (triggerDoorbell st env).2.2 = [] ∧
    ((triggerDoorbell st env).2.1 = TriggerReport.notConnected ∨
     (triggerDoorbell st env).2.1 = TriggerReport.noURL) := by
  unfold triggerDoorbell
  rcases h with h | h
  · simp [h]
  · by_cases hc : st.connected = false
    · simp [hc]
    · simp [hc, h]

/-- Witness for C2: disconnected device, no HTTP events. -/
theorem trigger_precondition_witness :
    (triggerDoorbell ⟨[], "http://x", "", "", false, false⟩ (fun _ => (200, "ok"))).2.2 = [] ∧
    ((triggerDoorbell ⟨[], "http://x", "", "", false, false⟩ (fun _ => (200, "ok"))).2.1 =
        TriggerReport.notConnected ∨
     (triggerDoorbell ⟨[], "http://x", "", "", false, false⟩ (fun _ => (200, "ok"))).2.1 =
        TriggerReport.noURL) :=
  trigger_precondition _ _ (Or.inl rfl)

/-- Claim C1: in the connected state with a non-empty URL, a first GET
returning a code `<= 0` is followed by a 50 ms delay and exactly one retry
GET (and nothing further, whatever the retry returns), while a first GET
returning a code `> 0` is never retried and its code and body are
reported. -/
theorem trigger_retry_policy (st : DeviceState) (env : Nat → Int × String)
    (hc : st.connected = true) (hu : st.triggerURL.length ≠ 0) :
    ((env 0).1 ≤ 0 →
       (triggerDoorbell st env).2.2 =
         [HEv.httpBegin st.triggerURL, HEv.httpGET (env 0).1, HEv.delayMs 50,
          HEv.httpGET (env 1).1, HEv.httpEnd]) ∧
    (0 < (env 0).1 →
       (triggerDoorbell st env).2.2 =
         [HEv.httpBegin st.triggerURL, HEv.httpGET (env 0).1, HEv.httpEnd] ∧
       (triggerDoorbell st env).2.1 = TriggerReport.response (env 0).1 (env 0).2) := by
  unfold triggerDoorbell
  dsimp only
  have hc' : ¬(st.connected = false) := by simp [hc]
  rw [if_neg hc', if_neg hu]
  constructor
  · intro h
    rw [if_pos h]
    split <;> rfl
  · intro h
    rw [if_neg (not_le.mpr h)]
    exact ⟨rfl, rfl⟩

/-- Witness for C1: a transport failure retries once; a 404 does not
retry and is reported. -/
theorem trigger_retry_policy_witness :
    (triggerDoorbell ⟨[], "http://x", "", "", false, true⟩ (fun _ => (-1, ""))).2.2 =
      [HEv.httpBegin "http://x", HEv.httpGET (-1), HEv.delayMs 50,
       HEv.httpGET (-1), HEv.httpEnd] ∧
    ((triggerDoorbell ⟨[], "http://x", "", "", false, true⟩ (fun _ => (404, "nf"))).2.2 =
       [HEv.httpBegin "http://x", HEv.httpGET 404, HEv.httpEnd] ∧
     (triggerDoorbell ⟨[], "http://x", "", "", false, true⟩ (fun _ => (404, "nf"))).2.1 =
       TriggerReport.response 404 "nf") :=
  ⟨(trigger_retry_policy ⟨[], "http://x", "", "", false, true⟩ (fun _ => (-1, ""))
      rfl (by decide)).1 (by decide),
   (trigger_retry_policy ⟨[], "http://x", "", "", false, true⟩ (fun _ => (404, "nf"))
      rfl (by decide)).2 (by decide)⟩

/-- Claim C8: from a low previous sample, the button sample sequence
[low, low, high, high, low, high] invokes the trigger client exactly
twice. -/
theorem button_edge_two_triggers (st : DeviceState) (env : Nat → Int × String)
    (h : st.lastButtonState = false) :
    (runLoop env st [false, false, true, true, false, true]).2 = 2 := by
  simp [runLoop, loopStep, triggerDoorbell_fst, h]

/-- Witness for C8 at a concrete initial state. -/
theorem button_edge_two_triggers_witness :
    (runLoop (fun _ => (0, "")) ⟨[], "", "", "", false, false⟩
      [false, false, true, true, false, true]).2 = 2 :=
  button_edge_two_triggers ⟨[], "", "", "", false, false⟩ (fun _ => (0, "")) rfl

/-- Claim C6: a trigger-URL input is persisted and made active iff it is
non-empty and begins with `http://` or `https://`; any other input leaves
the state (active URL and store) unchanged, with no store events. -/
theorem trigger_url_validation (st : DeviceState) (newURL : String) :
    (newURL.length ≠ 0 →
       (strStartsWith newURL "http://" || strStartsWith newURL "https://") = true →
       (configureTriggerURL st newURL).1.triggerURL = newURL ∧
       getString (configureTriggerURL st newURL).1.store "trigger-url" "" = newURL) ∧
    (newURL.length = 0 ∨
       (strStartsWith newURL "http://" || strStartsWith newURL "https://") = false →
       (configureTriggerURL st newURL).1 = st ∧
       (configureTriggerURL st newURL).2 = []) := by
  unfold configureTriggerURL
  constructor
  · intro h1 h2
    have hcond : ¬((!(strStartsWith newURL "http://") && !(strStartsWith newURL "https://")) = true) := by
      cases hA : strStartsWith newURL "http://" <;>
        cases hB : strStartsWith newURL "https://" <;> simp_all
    rw [if_neg h1, if_neg hcond]
    exact ⟨rfl, getString_putString_self st.store "trigger-url" newURL ""⟩
  · rintro (h | h)
    · rw [if_pos h]
      exact ⟨rfl, rfl⟩
    · by_cases h1 : newURL.length = 0
      · rw [if_pos h1]
        exact ⟨rfl, rfl⟩
      · have hcond : (!(strStartsWith newURL "http://") && !(strStartsWith newURL "https://")) = true := by
          cases hA : strStartsWith newURL "http://" <;>
            cases hB : strStartsWith newURL "https://" <;> simp_all
        rw [if_neg h1, if_pos hcond]
        exact ⟨rfl, rfl⟩

/-- Witness for C6: an `https://` URL is accepted, an `ftp://` URL leaves
the state unchanged. -/
theorem trigger_url_validation_witness :
    ((configureTriggerURL ⟨[], "http://old", "", "", false, true⟩ "https://new/hook").1.triggerURL
        = "https://new/hook" ∧
     getString (configureTriggerURL ⟨[], "http://old", "", "", false, true⟩
        "https://new/hook").1.store "trigger-url" "" = "https://new/hook") ∧
    ((configureTriggerURL ⟨[], "http://old", "", "", false, true⟩ "ftp://new").1 =
        ⟨[], "http://old", "", "", false, true⟩ ∧
     (configureTriggerURL ⟨[], "http://old", "", "", false, true⟩ "ftp://new").2 = []) :=
  ⟨(trigger_url_validation ⟨[], "http://old", "", "", false, true⟩ "https://new/hook").1
      (by decide) (by decide),
   (trigger_url_validation ⟨[], "http://old", "", "", false, true⟩ "ftp://new").2
      (Or.inr (by decide))⟩

/-- Claim C9: the Wi-Fi configuration action persists `ssid` and
`password` together or not at all: an aborted selection or an empty
password line leaves the store unchanged with no events, and on success
both keys are written inside the single `wifi-config` read-write session,
before the `WiFi.disconnect`/`WiFi.begin` connection attempt. -/
theorem configureWiFi_atomic_persist (st : DeviceState) (networks : List String)
    (selLine pwLine : String) (connectOK : Bool) :
    ((scanAndSelectNetwork networks selLine).length = 0 ∨ pwLine.length = 0 →
       (configureWiFi st networks selLine pwLine connectOK).1.store = st.store ∧
       (configureWiFi st networks selLine pwLine connectOK).2 = []) ∧
    ((scanAndSelectNetwork networks selLine).length ≠ 0 → pwLine.length ≠ 0 →
       (configureWiFi st networks selLine pwLine connectOK).1.store =
         putString (putString st.store "ssid" (scanAndSelectNetwork networks selLine))
           "password" pwLine ∧
       (configureWiFi st networks selLine pwLine connectOK).2 =
         [Ev.prefBegin "wifi-config" false,
          Ev.prefPut "ssid" (scanAndSelectNetwork networks selLine),
          Ev.prefPut "password" pwLine, Ev.prefEnd,
          Ev.wifiDisconnect,
          Ev.wifiBegin (scanAndSelectNetwork networks selLine) pwLine]) := by
  unfold configureWiFi
  dsimp only
  constructor
  · rintro (h | h)
    · rw [if_pos h]
      exact ⟨rfl, rfl⟩
    · by_cases h1 : (scanAndSelectNetwork networks selLine).length = 0
      · rw [if_pos h1]
        exact ⟨rfl, rfl⟩
      · rw [if_neg h1, if_pos h]
        exact ⟨rfl, rfl⟩
  · intro h1 h2
    rw [if_neg h1, if_neg h2]
    exact ⟨rfl, rfl⟩

/-- Witness for C9: an out-of-range selection writes nothing; a valid run
produces exactly the one-session trace followed by the connect calls. -/
theorem configureWiFi_atomic_persist_witness :
    ((configureWiFi ⟨[("ssid", "OldNet")], "", "OldNet", "", false, true⟩ ["HomeNet"] "9" "pw"
        true).1.store = [("ssid", "OldNet")] ∧
     (configureWiFi ⟨[("ssid", "OldNet")], "", "OldNet", "", false, true⟩ ["HomeNet"] "9" "pw"
        true).2 = []) ∧
    ((configureWiFi ⟨[], "", "", "", false, false⟩ ["HomeNet"] "1" "secret123" true).1.store =
       putString (putString [] "ssid" "HomeNet") "password" "secret123" ∧
     (configureWiFi ⟨[], "", "", "", false, false⟩ ["HomeNet"] "1" "secret123" true).2 =
       [Ev.prefBegin "wifi-config" false, Ev.prefPut "ssid" "HomeNet",
        Ev.prefPut "password" "secret123", Ev.prefEnd,
        Ev.wifiDisconnect, Ev.wifiBegin "HomeNet" "secret123"]) :=
  ⟨(configureWiFi_atomic_persist ⟨[("ssid", "OldNet")], "", "OldNet", "", false, true⟩
      ["HomeNet"] "9" "pw" true).1 (Or.inl (by decide)),
   (configureWiFi_atomic_persist ⟨[], "", "", "", false, false⟩
      ["HomeNet"] "1" "secret123" true).2 (by decide) (by decide)⟩

/-- Counterexample to claim C3 as stated: a Wi-Fi configuration run that
persists `ssid = HomeNet` leaves the in-memory `activeSSID`/`activePassword`
at their old values, so the mutation is not reflected into the in-memory
active value. -/
theorem active_credentials_not_updated :
    getString (configureWiFi ⟨[], "", "OldNet", "oldpw", false, false⟩
        ["HomeNet"] "1" "newpw" true).1.store "ssid" "" = "HomeNet" ∧
    (configureWiFi ⟨[], "", "OldNet", "oldpw", false, false⟩
        ["HomeNet"] "1" "newpw" true).1.activeSSID = "OldNet" ∧
    (configureWiFi ⟨[], "", "OldNet", "oldpw", false, false⟩
        ["HomeNet"] "1" "newpw" true).1.activePassword = "oldpw" ∧
    ("OldNet" : String) ≠ "HomeNet" ∧ ("oldpw" : String) ≠ "newpw" :=
  ⟨by decide, by decide, by decide, by decide, by decide⟩

/-- Claim C3 (amended): a trigger-URL mutation is immediately persisted
and immediately reflected into `triggerURL`; a Wi-Fi credential mutation
immediately persists both keys but leaves `activeSSID` and
`activePassword` unchanged. -/
theorem settings_mutation_amended (st : DeviceState) (newURL : String)
    (networks : List String) (selLine pwLine : String) (connectOK : Bool) :
    (newURL.length ≠ 0 →
       (strStartsWith newURL "http://" || strStartsWith newURL "https://") = true →
       getString (configureTriggerURL st newURL).1.store "trigger-url" "" = newURL ∧
       (configureTriggerURL st newURL).1.triggerURL = newURL) ∧
    ((scanAndSelectNetwork networks selLine).length ≠ 0 → pwLine.length ≠ 0 →
       getString (configureWiFi st networks selLine pwLine connectOK).1.store "ssid" "" =
         scanAndSelectNetwork networks selLine ∧
       getString (configureWiFi st networks selLine pwLine connectOK).1.store "password" "" =
         pwLine ∧
       (configureWiFi st networks selLine pwLine connectOK).1.activeSSID = st.activeSSID ∧
       (configureWiFi st networks selLine pwLine connectOK).1.activePassword =
         st.activePassword) := by
  constructor
  · intro h1 h2
    unfold configureTriggerURL
    have hcond : ¬((!(strStartsWith newURL "http://") && !(strStartsWith newURL "https://")) = true) := by
      cases hA : strStartsWith newURL "http://" <;>
        cases hB : strStartsWith newURL "https://" <;> simp_all
    rw [if_neg h1, if_neg hcond]
    exact ⟨getString_putString_self st.store "trigger-url" newURL "", rfl⟩
  · intro h1 h2
    unfold configureWiFi
    dsimp only
    rw [if_neg h1, if_neg h2]
    refine ⟨?_, ?_, rfl, rfl⟩
    · rw [getString_putString_other _ "ssid" "password" pwLine "" (by decide)]
      exact getString_putString_self st.store "ssid" (scanAndSelectNetwork networks selLine) ""
    · exact getString_putString_self _ "password" pwLine ""

/-- Witness for the amended C3 at concrete inputs. -/
theorem settings_mutation_amended_witness :
    (getString (configureTriggerURL ⟨[], "", "", "", false, true⟩ "http://hook").1.store
        "trigger-url" "" = "http://hook" ∧
     (configureTriggerURL ⟨[], "", "", "", false, true⟩ "http://hook").1.triggerURL =
        "http://hook") ∧
    (getString (configureWiFi ⟨[], "", "OldNet", "oldpw", false, false⟩
        ["HomeNet"] "1" "newpw" true).1.store "ssid" "" = "HomeNet" ∧
     getString (configureWiFi ⟨[], "", "OldNet", "oldpw", false, false⟩
        ["HomeNet"] "1" "newpw" true).1.store "password" "" = "newpw" ∧
     (configureWiFi ⟨[], "", "OldNet", "oldpw", false, false⟩
        ["HomeNet"] "1" "newpw" true).1.activeSSID = "OldNet" ∧
     (configureWiFi ⟨[], "", "OldNet", "oldpw", false, false⟩
        ["HomeNet"] "1" "newpw" true).1.activePassword = "oldpw") :=
  ⟨(settings_mutation_amended ⟨[], "", "", "", false, true⟩ "http://hook" [] "" "" true).1
      (by decide) (by decide),
   (settings_mutation_amended ⟨[], "", "OldNet", "oldpw", false, false⟩ ""
      ["HomeNet"] "1" "newpw" true).2 (by decide) (by decide)⟩

/-- Claim C5: over a scan result of length `N`, an input parsing to `i`
with `1 <= i <= N` selects the SSID at position `i - 1`; an input parsing
to `0` (as all non-numeric text does), a negative value, or anything above
`N` yields the invalid-selection outcome `""`. -/
theorem network_selection_spec (networks : List String) (selLine : String) :
    (1 ≤ stringToInt selLine → stringToInt selLine ≤ (networks.length : Int) →
       scanAndSelectNetwork networks selLine =
         networks.getD ((stringToInt selLine).toNat - 1) "") ∧
    (stringToInt selLine ≤ 0 ∨ (networks.length : Int) < stringToInt selLine →
       scanAndSelectNetwork networks selLine = "") := by
  unfold scanAndSelectNetwork
  dsimp only
  constructor
  · intro h1 h2
    have hlen : ¬(networks.length = 0) := by
      intro h0
      rw [h0] at h2
      simp at h2
      omega
    rw [if_neg hlen, if_pos ⟨by omega, by omega⟩]
    have hidx : (stringToInt selLine - 1).toNat = (stringToInt selLine).toNat - 1 := by
      omega
    rw [hidx]
  · intro h
    by_cases hlen : networks.length = 0
    · rw [if_pos hlen]
    · rw [if_neg hlen, if_neg]
      rintro ⟨ha, hb⟩
      rcases h with h | h <;> omega

/-- Witness for C5 on a three-network scan. -/
theorem network_selection_spec_witness :
    scanAndSelectNetwork ["alpha", "beta", "gamma"] "2" =
      ["alpha", "beta", "gamma"].getD ((stringToInt "2").toNat - 1) "" ∧
    scanAndSelectNetwork ["alpha", "beta", "gamma"] "4" = "" ∧
    scanAndSelectNetwork ["alpha", "beta", "gamma"] "junk" = "" :=
  ⟨(network_selection_spec ["alpha", "beta", "gamma"] "2").1 (by decide) (by decide),
   (network_selection_spec ["alpha", "beta", "gamma"] "4").2 (Or.inr (by decide)),
   (network_selection_spec ["alpha", "beta", "gamma"] "junk").2 (Or.inl (by decide))⟩

/-- The reader loop returns the empty accumulation exactly when it started
empty and no non-terminator byte arrives. -/
lemma readLoop_eq_nil_iff (s : List (Option Char)) (acc : List Char) :
    readLoop s acc = [] ↔ acc = [] ∧ nonTermChars s = [] := by
  induction s generalizing acc with
  | nil => simp [readLoop, nonTermChars]
  | cons o rest ih =>
    cases o with
    | none =>
      rw [show readLoop (none :: rest) acc = readLoop rest acc from rfl, ih]
      simp [nonTermChars]
    | some c =>
      by_cases ht : isTerm c = true
      · rw [show readLoop (some c :: rest) acc =
              (if isTerm c then
                 if acc.length > 0 then acc else readLoop rest acc
               else readLoop rest (acc ++ [c])) from rfl,
            if_pos ht]
        cases acc with
        | nil => simp [ih, nonTermChars, ht]
        | cons a as => simp [nonTermChars, ht]
      · rw [show readLoop (some c :: rest) acc =
              (if isTerm c then
                 if acc.length > 0 then acc else readLoop rest acc
               else readLoop rest (acc ++ [c])) from rfl,
            if_neg ht, ih]
        simp [nonTermChars, ht]

/-- When every received byte is a non-terminator, the loop runs to the end
of its window and returns everything it accumulated. -/
lemma readLoop_all_nonterm (s : List (Option Char)) :
    ∀ acc : List Char, (∀ c ∈ s.filterMap id, isTerm c = false) →
      readLoop s acc = acc ++ s.filterMap id := by
  induction s with
  | nil =>
    intro acc h
    simp [readLoop]
  | cons o rest ih =>
    intro acc h
    cases o with
    | none =>
      rw [show readLoop (none :: rest) acc = readLoop rest acc from rfl]
      rw [ih acc (fun c hc => h c (by simpa using hc))]
      simp
    | some c =>
      have hc : isTerm c = false := h c (by simp)
      rw [show readLoop (some c :: rest) acc =
            (if isTerm c then
               if acc.length > 0 then acc else readLoop rest acc
             else readLoop rest (acc ++ [c])) from rfl,
          if_neg (by simp [hc])]
      rw [ih (acc ++ [c]) (fun c' hc' => h c' (by simp [hc']))]
      simp

/-- Claim C4 (amended): the serial line read returns the empty string iff
every byte received in the 30 s window is a bare newline/carriage return
(or nothing arrives); in particular, when only non-terminator bytes arrive
the timeout returns the accumulated partial line, not the empty string. -/
theorem serial_timeout_empty_characterization (seq : List (Option Char)) :
    (readSerialTimeout seq = "" ↔
       nonTermChars (seq.take (serialTimeoutMs / 10)) = []) ∧
    ((∀ c ∈ (seq.take (serialTimeoutMs / 10)).filterMap id, isTerm c = false) →
       readSerialTimeout seq =
         String.mk (nonTermChars (seq.take (serialTimeoutMs / 10)))) := by
  constructor
  · unfold readSerialTimeout
    rw [show ("" : String) = String.mk [] from rfl, String.ext_iff]
    simpa using readLoop_eq_nil_iff (seq.take (serialTimeoutMs / 10)) []
  · intro h
    unfold readSerialTimeout
    rw [readLoop_all_nonterm _ [] h, List.nil_append]
    have : nonTermChars (seq.take (serialTimeoutMs / 10)) =
        (seq.take (serialTimeoutMs / 10)).filterMap id := by
      unfold nonTermChars
      rw [List.filter_eq_self]
      intro c hc
      simp [h c hc]
    rw [this]

/-- Witness for the amended C4: unterminated bytes `d`,`o`,`g` are
returned at timeout. -/
theorem serial_timeout_empty_characterization_witness :
    readSerialTimeout [some 'd', none, some 'o', some 'g'] =
      String.mk (nonTermChars ([some 'd', none, some 'o', some 'g'].take
        (serialTimeoutMs / 10))) :=
  (serial_timeout_empty_characterization [some 'd', none, some 'o', some 'g']).2 (by decide)

/-- Counterexample to claim C4 as stated: a single byte `a` with no
newline before the timeout makes the read return `"a"`, not the empty
string. -/
theorem serial_timeout_partial_line :
    readSerialTimeout [some 'a'] = "a" ∧ ("a" : String) ≠ "" :=
  ⟨by decide, by decide⟩

end DoggyDoorbell
